import Mathlib

/-!
# Verification of the electricity-bill-splitter calculation engine

Shallow embedding of the pure calculation core of the repository
(`src/utils/calculations.js`, `src/utils/constants.js`,
`src/utils/csvParser.js`, `src/utils/dateHelpers.js`, and the
least-squares fitter duplicated in
`src/components/DecemberBill/DecemberBillSplit.jsx` and
`src/components/Calculations/Calculations.jsx`).

JavaScript numbers are modelled as exact rationals (`ℚ`); where a
computation can produce a non-finite JavaScript number (`NaN`, `±Infinity`)
the embedding uses `Option ℚ` with `none` standing for the non-finite
value.  Date strings are ISO `YYYY-MM-DD` strings, compared
lexicographically exactly as JavaScript `>=`/`<=` compares them.
-/

namespace BillSplitter

/-! ## JavaScript string comparison

JavaScript compares strings (`>=`, `<=`) lexicographically by code unit;
on the ISO `YYYY-MM-DD` date strings of this program that is plain
lexicographic character order.  The core `String.le` is not
kernel-reducible, so the embedding carries its own structural
definition. -/

/-- Lexicographic `≤` on character lists. -/
def charListLe : List Char → List Char → Bool
  | [], _ => true
  | _ :: _, [] => false
  | a :: as, b :: bs =>
    if a = b then charListLe as bs else decide (a < b)

/-- JavaScript `a <= b` on strings (and `b >= a`). -/
def jsStrLe (a b : String) : Bool := charListLe a.data b.data

/-! ## Constants (`src/utils/constants.js`) -/

def LEGAL_MIN_INTERCEPT : ℚ := 50.75

def LEGAL_MIN_SLOPE : ℚ := -0.888

def COST_PER_KWH : ℚ := 0.2061

def MIN_LEGAL_MIN_USAGE : ℚ := 5

def MAX_LEGAL_MIN_USAGE : ℚ := 50

/-! ## Core calculation functions (`src/utils/calculations.js`) -/

/-- `calculateLegalMinimum` (calculations.js lines 34-40): linear model
clamped to `[MIN_LEGAL_MIN_USAGE, MAX_LEGAL_MIN_USAGE]`. -/
def calculateLegalMinimum (outdoorTempF : ℚ) : ℚ :=
  let usage := LEGAL_MIN_INTERCEPT + (LEGAL_MIN_SLOPE * outdoorTempF)
  max MIN_LEGAL_MIN_USAGE (min MAX_LEGAL_MIN_USAGE usage)

/-- Result record of `calculateExcess`. -/
structure Excess where
  usage : ℚ
  cost : ℚ
  isNegative : Bool
  deriving Repr, DecidableEq

/-- `calculateExcess` (calculations.js lines 57-66). -/
def calculateExcess (actualUsage legalMinUsage : ℚ) : Excess :=
  let excessUsage := actualUsage - legalMinUsage
  let excessCost := excessUsage * COST_PER_KWH
  { usage := excessUsage
    cost := excessCost
    isNegative := decide (excessUsage < 0) }

/-- Return record of `calculateDailySplit`. -/
structure DailySplit where
  legalMinUsage : ℚ
  legalMinCost : ℚ
  actualCost : ℚ
  excessUsage : ℚ
  excessCost : ℚ
  yourShare : ℚ
  flatmateShare : ℚ
  thermostatController : String
  deriving Repr, DecidableEq

/-- `calculateDailySplit` (calculations.js lines 93-140) with the
`thermostatController` argument passed explicitly. -/
def calculateDailySplit (actualUsage outdoorTempF : ℚ)
    (thermostatController : String) : DailySplit :=
  let legalMinUsage := calculateLegalMinimum outdoorTempF
  let legalMinCost := legalMinUsage * COST_PER_KWH
  let actualCost := actualUsage * COST_PER_KWH
  let e := calculateExcess actualUsage legalMinUsage
  let legalMinShareEach := legalMinCost / 2
  let shares : ℚ × ℚ :=
    if e.isNegative then
      (actualCost / 2, actualCost / 2)
    else
      if thermostatController = "flatmate" then
        (legalMinShareEach, legalMinShareEach + e.cost)
      else
        (legalMinShareEach + e.cost, legalMinShareEach)
  { legalMinUsage := legalMinUsage
    legalMinCost := legalMinCost
    actualCost := actualCost
    excessUsage := e.usage
    excessCost := e.cost
    yourShare := shares.1
    flatmateShare := shares.2
    thermostatController := thermostatController }

/-- In JavaScript the `thermostatController` parameter of
`calculateDailySplit` carries the default value "flatmate"; calling the
function with the parameter omitted is calling it with "flatmate". -/
def calculateDailySplitNoController (actualUsage outdoorTempF : ℚ) : DailySplit :=
  calculateDailySplit actualUsage outdoorTempF "flatmate"

/-! ## Period split (`calculateTimeWindowSplit`, calculations.js lines 175-287) -/

/-- A daily record as consumed by `calculateTimeWindowSplit`:
`{date, usage_kwh, temp_mean_f}`. -/
structure DayRecord where
  date : String
  usage_kwh : ℚ
  temp_mean_f : ℚ
  deriving Repr, DecidableEq

/-- Resident flags `{you, flatmate}` of an occupancy period (JavaScript
numbers, `0` or `1` in intended use). -/
structure Residents where
  you : ℕ
  flatmate : ℕ
  deriving Repr, DecidableEq

/-- One caller-supplied occupancy configuration
`{start, end, residents, thermostatController}`.  (`end` is a Lean keyword,
hence the field name `endDate`.) -/
structure OccupancyPeriod where
  start : String
  endDate : String
  residents : Residents
  thermostatController : String
  deriving Repr, DecidableEq

/-- The two fields of an occupancy object that `calculateTimeWindowSplit`
reads after resolution. -/
structure Occupancy where
  residents : Residents
  thermostatController : String
  deriving Repr, DecidableEq

/-- The date range `{start, end}` argument. -/
structure DateRange where
  start : String
  endDate : String
  deriving Repr, DecidableEq

/-- The record filter of calculations.js lines 177-180:
`date >= dateRange.start && date <= dateRange.end`. -/
def inDateRange (dateRange : DateRange) (record : DayRecord) : Bool :=
  jsStrLe dateRange.start record.date && jsStrLe record.date dateRange.endDate

/-- Occupancy resolution of calculations.js lines 185-191:
`occupancyPeriods.find((period) => record.date >= period.start &&
record.date <= period.end)` with the default
`{residents: {you: 1, flatmate: 1}, thermostatController: "flatmate"}`
when no period matches. -/
def resolveOccupancy (occupancyPeriods : List OccupancyPeriod) (date : String) :
    Occupancy :=
  match occupancyPeriods.find?
      (fun period => jsStrLe period.start date && jsStrLe date period.endDate) with
  | some period =>
      { residents := period.residents
        thermostatController := period.thermostatController }
  | none =>
      { residents := { you := 1, flatmate := 1 }
        thermostatController := "flatmate" }

/-- One element of the `dailyBreakdowns` array. -/
structure DayBreakdown where
  date : String
  usage : ℚ
  temp : ℚ
  cost : ℚ
  yourShare : ℚ
  flatmateShare : ℚ
  occupancy : String
  legalMinCost : ℚ
  excessCost : ℚ
  deriving Repr, DecidableEq

/-- The per-day body of the `filteredData.map` in calculations.js
lines 183-253. -/
def dayBreakdown (occupancyPeriods : List OccupancyPeriod)
    (record : DayRecord) : DayBreakdown :=
  let occupancy := resolveOccupancy occupancyPeriods record.date
  let you := occupancy.residents.you
  let flatmate := occupancy.residents.flatmate
  let totalResidents := you + flatmate
  let legalMinUsage := calculateLegalMinimum record.temp_mean_f
  let legalMinCost := legalMinUsage * COST_PER_KWH
  let actualCost := record.usage_kwh * COST_PER_KWH
  let e := calculateExcess record.usage_kwh legalMinUsage
  let shares : ℚ × ℚ :=
    if e.isNegative then
      (actualCost / 2, actualCost / 2)
    else
      let yourLegalMinShare := legalMinCost / 2
      let flatmateLegalMinShare := legalMinCost / 2
      if totalResidents = 0 then
        (yourLegalMinShare, flatmateLegalMinShare)
      else if totalResidents = 1 then
        if you = 1 then
          (yourLegalMinShare + e.cost, flatmateLegalMinShare)
        else
          (yourLegalMinShare, flatmateLegalMinShare + e.cost)
      else
        if occupancy.thermostatController = "flatmate" then
          (yourLegalMinShare, flatmateLegalMinShare + e.cost)
        else
          (yourLegalMinShare + e.cost, flatmateLegalMinShare)
  { date := record.date
    usage := record.usage_kwh
    temp := record.temp_mean_f
    cost := actualCost
    yourShare := shares.1
    flatmateShare := shares.2
    occupancy :=
      if totalResidents = 0 then "none"
      else if totalResidents = 1 then
        (if you ≠ 0 then "you-only" else "flatmate-only")
      else "both"
    legalMinCost := legalMinCost
    excessCost := e.cost }

/-- The accumulated totals record of calculations.js lines 256-277. -/
structure Totals where
  totalDays : ℕ
  totalUsage : ℚ
  totalCost : ℚ
  yourShare : ℚ
  flatmateShare : ℚ
  avgTemp : ℚ
  legalMinTotal : ℚ
  excessTotal : ℚ
  deriving Repr, DecidableEq

/-- The initial accumulator of the `reduce` (calculations.js lines 267-276). -/
def initialTotals : Totals :=
  { totalDays := 0, totalUsage := 0, totalCost := 0, yourShare := 0
    flatmateShare := 0, avgTemp := 0, legalMinTotal := 0, excessTotal := 0 }

/-- One step of the `reduce` (calculations.js lines 257-266). -/
def totalsStep (acc : Totals) (day : DayBreakdown) : Totals :=
  { totalDays := acc.totalDays + 1
    totalUsage := acc.totalUsage + day.usage
    totalCost := acc.totalCost + day.cost
    yourShare := acc.yourShare + day.yourShare
    flatmateShare := acc.flatmateShare + day.flatmateShare
    avgTemp := acc.avgTemp + day.temp
    legalMinTotal := acc.legalMinTotal + day.legalMinCost
    excessTotal := acc.excessTotal + day.excessCost }

/-- Return value of `calculateTimeWindowSplit`. -/
structure TimeWindowResult where
  dateRange : DateRange
  totals : Totals
  dailyBreakdowns : List DayBreakdown
  deriving Repr, DecidableEq

/-- `calculateTimeWindowSplit` (calculations.js lines 175-287). -/
def calculateTimeWindowSplit (data : List DayRecord) (dateRange : DateRange)
    (occupancyPeriods : List OccupancyPeriod) : TimeWindowResult :=
  let filteredData := data.filter (inDateRange dateRange)
  let dailyBreakdowns := filteredData.map (dayBreakdown occupancyPeriods)
  let totals := dailyBreakdowns.foldl totalsStep initialTotals
  let totals :=
    { totals with
        avgTemp :=
          if 0 < totals.totalDays then totals.avgTemp / (totals.totalDays : ℚ)
          else 0 }
  { dateRange := dateRange
    totals := totals
    dailyBreakdowns := dailyBreakdowns }

/-! ## Least-squares fitter (`decemberModel`)

The identical regression appears in
`src/components/DecemberBill/DecemberBillSplit.jsx` lines 38-52 and
`src/components/Calculations/Calculations.jsx` lines 34-47. -/

/-- JavaScript division where the divisor may be zero: `none` models the
non-finite result (`NaN` when the dividend is also zero, `±Infinity`
otherwise); a finite result is `some`. -/
def jsDiv (a b : ℚ) : Option ℚ :=
  if b = 0 then none else some (a / b)

/-- An observation row as read by the fitter (`temp_mean_f`, `usage_kwh`). -/
structure Observation where
  temp_mean_f : ℚ
  usage_kwh : ℚ
  deriving Repr, DecidableEq

/-- The fitted `{intercept, slope}` object; a field is `none` when the
JavaScript computation produces `NaN`. -/
structure FitModel where
  intercept : Option ℚ
  slope : Option ℚ
  deriving Repr, DecidableEq

/-- `decemberModel` (DecemberBillSplit.jsx lines 38-52, and identically
Calculations.jsx lines 34-47): returns `null` (here `none`) on an empty
observation list, otherwise the least-squares slope and intercept with the
sums accumulated by `reduce`.  `slope = (n·Σxy − Σx·Σy) / (n·Σx² − (Σx)²)`
is `NaN` when the denominator is zero; `intercept = (Σy − slope·Σx) / n`
then propagates the `NaN`. -/
def decemberModelFit (decBaselineData : List Observation) : Option FitModel :=
  if decBaselineData.length = 0 then none
  else
    let n : ℚ := decBaselineData.length
    let sumX := decBaselineData.foldl (fun sum d => sum + d.temp_mean_f) 0
    let sumY := decBaselineData.foldl (fun sum d => sum + d.usage_kwh) 0
    let sumXY := decBaselineData.foldl (fun sum d => sum + d.temp_mean_f * d.usage_kwh) 0
    let sumXX := decBaselineData.foldl (fun sum d => sum + d.temp_mean_f * d.temp_mean_f) 0
    let slope := jsDiv (n * sumXY - sumX * sumY) (n * sumXX - sumX * sumX)
    let intercept :=
      match slope with
      | none => none
      | some s => some ((sumY - s * sumX) / n)
    some { intercept := intercept, slope := slope }

/-! ## CSV record validation and merge (`src/utils/csvParser.js`) -/

/-- One raw CSV row after papaparse and the per-field parses applied by
`parsePECOCSV`: `date` is the result of `parseDate`+`formatDate` (`none`
when the date does not parse, otherwise the canonical `YYYY-MM-DD`
string); the numeric fields are the results of `parseFloat` (`none`
models `NaN`, i.e. a missing or non-numeric cell). -/
structure RawRecord where
  date : Option String
  usage_kwh : Option ℚ
  temp_mean_f : Option ℚ
  temp_min_f : Option ℚ
  temp_max_f : Option ℚ
  cost_dollars : Option ℚ
  deriving Repr, DecidableEq

/-- A normalized record as pushed onto `validRecords` (csvParser.js
lines 88-95).  `temp_mean_f` stays an `Option`: the source stores the
`parseFloat` result unchanged, `NaN` included. -/
structure CSVRecord where
  date : String
  usage_kwh : ℚ
  temp_mean_f : Option ℚ
  temp_min_f : Option ℚ
  temp_max_f : Option ℚ
  cost_dollars : ℚ
  deriving Repr, DecidableEq

/-- JavaScript `x || d`: take the fallback when `x` is falsy (`NaN`,
modelled by `none`, or `0`). -/
def jsOr (x : Option ℚ) (d : Option ℚ) : Option ℚ :=
  match x with
  | none => d
  | some v => if v = 0 then d else some v

/-- Like `jsOr` with a certainly-finite fallback. -/
def jsOrQ (x : Option ℚ) (d : ℚ) : ℚ :=
  match x with
  | none => d
  | some v => if v = 0 then d else v

/-- The per-row validation body of csvParser.js lines 63-99: reject a row
whose date does not parse, or whose usage is `NaN` or negative; a `NaN` or
out-of-range temperature only produces a warning (`true` in the second
component) and the row is kept, its `temp_mean_f` stored as parsed. -/
def validateRow (record : RawRecord) : Option CSVRecord × Bool :=
  match record.date with
  | none => (none, false)
  | some d =>
    match record.usage_kwh with
    | none => (none, false)
    | some usage =>
      if usage < 0 then (none, false)
      else
        let tempWarning :=
          match record.temp_mean_f with
          | none => true
          | some t => decide (t < -50) || decide (150 < t)
        (some { date := d
                usage_kwh := usage
                temp_mean_f := record.temp_mean_f
                temp_min_f := jsOr record.temp_min_f record.temp_mean_f
                temp_max_f := jsOr record.temp_max_f record.temp_mean_f
                cost_dollars := jsOrQ record.cost_dollars (usage * 0.2061) },
         tempWarning)

/-- Stable insertion of a record into a date-sorted list. -/
def insertByDate (r : CSVRecord) : List CSVRecord → List CSVRecord
  | [] => [r]
  | s :: rest =>
    if jsStrLe r.date s.date then r :: s :: rest else s :: insertByDate r rest

/-- Stable sort by date: the model of the stable
`validRecords.sort((a, b) => a.date.localeCompare(b.date))` calls in
csvParser.js (lines 108 and 133); `localeCompare` on ISO dates orders
them lexicographically. -/
def sortByDate : List CSVRecord → List CSVRecord
  | [] => []
  | r :: rest => insertByDate r (sortByDate rest)

/-- Keep-first-occurrence filter on a list of records already reversed,
used to mirror the backwards loop of csvParser.js lines 127-132. -/
def dedupKeepFirst : List CSVRecord → List String → List CSVRecord
  | [], _ => []
  | r :: rest, seen =>
    if seen.any (fun d => decide (d = r.date)) then dedupKeepFirst rest seen
    else r :: dedupKeepFirst rest (r.date :: seen)

/-- The `uniqueRecords` computation of csvParser.js lines 124-133: walk
`validRecords` from the back, keep the last occurrence of each date,
restore original order, then sort by date.  (The source computes this
list when duplicates are present — and then never uses it.) -/
def uniqueByDateKeepLast (records : List CSVRecord) : List CSVRecord :=
  let uniqueRecords := (dedupKeepFirst records.reverse []).reverse
  sortByDate uniqueRecords

/-- The record pipeline of `parsePECOCSV` (csvParser.js lines 59-150)
after papaparse: validate every row, sort the valid records by date, and
return them.  The duplicate-handling block (lines 110-134) only pushes a
warning and computes `uniqueRecords` (`uniqueByDateKeepLast` above),
which is dropped: the function returns the sorted `validRecords`,
duplicate dates included. -/
def parsePECOCSVRecords (rows : List RawRecord) : List CSVRecord :=
  let validRecords := rows.filterMap (fun r => (validateRow r).1)
  let sorted := sortByDate validRecords
  sorted

/-! ## Date-range validation (`src/utils/dateHelpers.js` lines 74-97)

A calendar date is represented by its day number (an integer), the
abstraction under which the `Date` values of `parseDate` compare and subtract:
`differenceInDays(end, start)` is exactly `end − start`.  A `none`
argument models a string `parseDate` rejects. -/

/-- The `{valid, error?}` object returned by `validateDateRange`. -/
structure ValidationResult where
  valid : Bool
  error : Option String
  deriving Repr, DecidableEq

/-- `validateDateRange` (dateHelpers.js lines 74-97). -/
def validateDateRange (startDate endDate : Option ℤ) : ValidationResult :=
  match startDate with
  | none => { valid := false, error := some "Invalid start date" }
  | some start =>
    match endDate with
    | none => { valid := false, error := some "Invalid end date" }
    | some e =>
      if e < start then
        { valid := false, error := some "End date must be after start date" }
      else
        let days := e - start
        if 365 < days then
          { valid := false, error := some "Date range cannot exceed 1 year" }
        else
          { valid := true, error := none }

/-! ## Helper lemmas -/

/-- Per-day cost conservation: whenever the resolved occupancy is not
`"none"`, the two shares computed by `dayBreakdown` sum to the actual
cost of the day. -/
lemma dayBreakdown_shares_sum (ops : List OccupancyPeriod) (r : DayRecord)
    (h : (dayBreakdown ops r).occupancy ≠ "none") :
    (dayBreakdown ops r).yourShare + (dayBreakdown ops r).flatmateShare
      = (dayBreakdown ops r).cost := by
  simp only [dayBreakdown, calculateExcess] at *
  split_ifs at * with h1 h2 h3 h4 h5 <;> simp_all <;> ring

/-- Cost conservation for `calculateDailySplit`, in every branch. -/
lemma calculateDailySplit_shares_sum (u t : ℚ) (c : String) :
    (calculateDailySplit u t c).yourShare + (calculateDailySplit u t c).flatmateShare
      = (calculateDailySplit u t c).actualCost := by
  simp only [calculateDailySplit, calculateExcess]
  split_ifs <;> simp <;> ring

/-- When no supplied occupancy period contains the date, resolution falls
back to the default assignment. -/
lemma resolveOccupancy_of_no_match (ops : List OccupancyPeriod) (date : String)
    (h : ∀ q ∈ ops, ¬(jsStrLe q.start date = true ∧ jsStrLe date q.endDate = true)) :
    resolveOccupancy ops date
      = { residents := { you := 1, flatmate := 1 }, thermostatController := "flatmate" } := by
  have hfind : ops.find? (fun p => jsStrLe p.start date && jsStrLe date p.endDate) = none := by
    rw [List.find?_eq_none]
    intro x hx
    simpa [Bool.and_eq_true] using h x hx
  simp [resolveOccupancy, hfind]

/-- Resolution returns the first period in list order whose closed
interval contains the date. -/
lemma resolveOccupancy_of_first_match (pre post : List OccupancyPeriod)
    (p : OccupancyPeriod) (date : String)
    (hpre : ∀ q ∈ pre, ¬(jsStrLe q.start date = true ∧ jsStrLe date q.endDate = true))
    (hp : jsStrLe p.start date = true ∧ jsStrLe date p.endDate = true) :
    resolveOccupancy (pre ++ p :: post) date
      = { residents := p.residents, thermostatController := p.thermostatController } := by
  induction pre with
  | nil =>
    simp [resolveOccupancy, List.find?_cons, hp.1, hp.2]
  | cons q qs ih =>
    have hq : (jsStrLe q.start date && jsStrLe date q.endDate) = false := by
      have := hpre q (List.mem_cons_self q qs)
      simp only [Bool.and_eq_true] at this ⊢
      by_contra hcon
      exact this (by simpa [Bool.and_eq_true] using hcon)
    have ih2 := ih (fun x hx => hpre x (List.mem_cons_of_mem _ hx))
    simp only [resolveOccupancy, List.cons_append, List.find?] at ih2 ⊢
    rw [hq]
    exact ih2

/-- The running temperature sum of the fitter, as a mapped list sum. -/
lemma foldl_temp (l : List Observation) (a : ℚ) :
    l.foldl (fun sum d => sum + d.temp_mean_f) a
      = a + (l.map (fun d => d.temp_mean_f)).sum := by
  induction l generalizing a with
  | nil => simp
  | cons x xs ih => simp [ih]; ring

/-- The running squared-temperature sum of the fitter, as a mapped list
sum. -/
lemma foldl_temp_sq (l : List Observation) (a : ℚ) :
    l.foldl (fun sum d => sum + d.temp_mean_f * d.temp_mean_f) a
      = a + (l.map (fun d => d.temp_mean_f * d.temp_mean_f)).sum := by
  induction l generalizing a with
  | nil => simp
  | cons x xs ih => simp [ih]; ring

/-! ## Claim theorems -/

/-- C1: for every day processed by `calculateTimeWindowSplit` whose
resolved occupancy has at least one occupant present (occupancy status is
not `"none"`), and for every input to `calculateDailySplit`, the sum of
the two shares equals the actual cost of the day, which is
`actualUsage × COST_PER_KWH` — exactly, in rational arithmetic. -/
theorem period_and_daily_shares_sum_to_actual_cost
    (data : List DayRecord) (dateRange : DateRange)
    (occupancyPeriods : List OccupancyPeriod) (b : DayBreakdown)
    (u t : ℚ) (controller : String)
    (hb : b ∈ (calculateTimeWindowSplit data dateRange occupancyPeriods).dailyBreakdowns)
    (hocc : b.occupancy ≠ "none") :
    b.yourShare + b.flatmateShare = b.cost ∧
    b.cost = b.usage * COST_PER_KWH ∧
    (calculateDailySplit u t controller).yourShare
        + (calculateDailySplit u t controller).flatmateShare
      = (calculateDailySplit u t controller).actualCost ∧
    (calculateDailySplit u t controller).actualCost = u * COST_PER_KWH := by
  simp only [calculateTimeWindowSplit, List.mem_map] at hb
  obtain ⟨r, hr, rfl⟩ := hb
  refine ⟨dayBreakdown_shares_sum _ _ hocc, ?_,
    calculateDailySplit_shares_sum u t controller, ?_⟩
  · simp [dayBreakdown]
  · simp [calculateDailySplit]

/-- C1 witness: the conservation theorem applied to the concrete day
record (51 kWh at 30 °F, both occupants present by default). -/
theorem period_and_daily_shares_sum_to_actual_cost_witness :
    (dayBreakdown [] ⟨"2026-01-05", 51, 30⟩).yourShare
        + (dayBreakdown [] ⟨"2026-01-05", 51, 30⟩).flatmateShare
      = (dayBreakdown [] ⟨"2026-01-05", 51, 30⟩).cost ∧
    (dayBreakdown [] ⟨"2026-01-05", 51, 30⟩).cost
      = (dayBreakdown [] ⟨"2026-01-05", 51, 30⟩).usage * COST_PER_KWH ∧
    (calculateDailySplit 51 30 "you").yourShare
        + (calculateDailySplit 51 30 "you").flatmateShare
      = (calculateDailySplit 51 30 "you").actualCost ∧
    (calculateDailySplit 51 30 "you").actualCost = 51 * COST_PER_KWH :=
  period_and_daily_shares_sum_to_actual_cost
    [⟨"2026-01-05", 51, 30⟩] ⟨"2026-01-01", "2026-01-31"⟩ [] _ 51 30 "you"
    (List.mem_map_of_mem _ (List.mem_filter.mpr ⟨List.mem_singleton_self _, by decide⟩))
    (by
      norm_num [dayBreakdown, resolveOccupancy, calculateExcess, calculateLegalMinimum,
        LEGAL_MIN_INTERCEPT, LEGAL_MIN_SLOPE, MIN_LEGAL_MIN_USAGE, MAX_LEGAL_MIN_USAGE]
      decide)

/-- C2 counterexample: fitting on identical temperatures
`[{temp: 40, usage: 5}, {temp: 40, usage: 8}]` does not signal any error —
the fitter returns a model object whose slope and intercept are `NaN`
(the denominator and the numerator of the slope are both zero). -/
theorem degenerate_fit_returns_nan_model_not_error :
    decemberModelFit [⟨40, 5⟩, ⟨40, 8⟩] = some { intercept := none, slope := none } := by
  norm_num [decemberModelFit, jsDiv]

/-- C2 (amended): for every nonempty observation set whose temperatures
are all identical (zero variance, including the single-observation case),
the fitter returns — with no error signalled; no `DegenerateInputError`
exists anywhere in the code — a model whose slope and intercept are both
`NaN`. -/
theorem zero_variance_fit_yields_nan_model (data : List Observation) (t0 : ℚ)
    (hne : data ≠ []) (hall : ∀ d ∈ data, d.temp_mean_f = t0) :
    decemberModelFit data = some { intercept := none, slope := none } := by
  have hlen : ¬(data.length = 0) := by simpa using hne
  have hmapX : data.map (fun d => d.temp_mean_f) = List.replicate data.length t0 := by
    rw [List.eq_replicate_iff]
    exact ⟨by simp, by intro b hb; obtain ⟨d, hd, rfl⟩ := List.mem_map.mp hb; exact hall d hd⟩
  have hmapXX : data.map (fun d => d.temp_mean_f * d.temp_mean_f)
      = List.replicate data.length (t0 * t0) := by
    rw [List.eq_replicate_iff]
    refine ⟨by simp, ?_⟩
    intro b hb
    obtain ⟨d, hd, rfl⟩ := List.mem_map.mp hb
    rw [hall d hd]
  have hX : data.foldl (fun sum d => sum + d.temp_mean_f) 0 = (data.length : ℚ) * t0 := by
    rw [foldl_temp, hmapX]
    simp [List.sum_replicate, nsmul_eq_mul]
  have hXX : data.foldl (fun sum d => sum + d.temp_mean_f * d.temp_mean_f) 0
      = (data.length : ℚ) * (t0 * t0) := by
    rw [foldl_temp_sq, hmapXX]
    simp [List.sum_replicate, nsmul_eq_mul]
  have hdenom : (data.length : ℚ) * ((data.length : ℚ) * (t0 * t0))
      - (data.length : ℚ) * t0 * ((data.length : ℚ) * t0) = 0 := by ring
  simp only [decemberModelFit, if_neg hlen, hX, hXX, hdenom, jsDiv]
  simp

/-- C2 witness: the zero-variance theorem applied to the two-observation
degenerate data set of the spec. -/
theorem zero_variance_fit_yields_nan_model_witness :
    ([⟨40, 5⟩, ⟨40, 8⟩] : List Observation) ≠ [] ∧
    decemberModelFit [⟨40, 5⟩, ⟨40, 8⟩] = some { intercept := none, slope := none } :=
  ⟨by simp,
   zero_variance_fit_yields_nan_model [⟨40, 5⟩, ⟨40, 8⟩] 40 (by simp) (by
     intro d hd
     rcases List.mem_cons.mp hd with rfl | hd2
     · rfl
     · rcases List.mem_cons.mp hd2 with rfl | h
       · rfl
       · cases h)⟩

/-- C3: an import with two rows carrying the same date key.  The parser
returns BOTH records — the duplicate-handling block of `parsePECOCSV`
computes the keep-last-occurrence list (`uniqueByDateKeepLast`, shown in
the third conjunct to contain exactly the later record) but drops it and
returns the sorted `validRecords` unchanged, contradicting the
"Keeping latest entries." warning the same block emits. -/
theorem duplicate_dates_survive_parse :
    parsePECOCSVRecords
        [⟨some "2026-01-05", some 10, some 40, none, none, none⟩,
         ⟨some "2026-01-05", some 20, some 41, none, none, none⟩]
      = [⟨"2026-01-05", 10, some 40, some 40, some 40, 2.061⟩,
         ⟨"2026-01-05", 20, some 41, some 41, some 41, 4.122⟩] ∧
    (parsePECOCSVRecords
        [⟨some "2026-01-05", some 10, some 40, none, none, none⟩,
         ⟨some "2026-01-05", some 20, some 41, none, none, none⟩]).map
        (fun r => r.date)
      = ["2026-01-05", "2026-01-05"] ∧
    uniqueByDateKeepLast
        [⟨"2026-01-05", 10, some 40, some 40, some 40, 2.061⟩,
         ⟨"2026-01-05", 20, some 41, some 41, some 41, 4.122⟩]
      = [⟨"2026-01-05", 20, some 41, some 41, some 41, 4.122⟩] := by
  refine ⟨?_, ?_, ?_⟩
  · norm_num [parsePECOCSVRecords, validateRow, sortByDate, insertByDate, jsOr, jsOrQ,
      show jsStrLe "2026-01-05" "2026-01-05" = true from by decide]
  · norm_num [parsePECOCSVRecords, validateRow, sortByDate, insertByDate, jsOr, jsOrQ,
      show jsStrLe "2026-01-05" "2026-01-05" = true from by decide]
  · norm_num [uniqueByDateKeepLast, dedupKeepFirst, sortByDate, insertByDate]

/-- C4 counterexample: a row whose `temp_mean_f` cell is missing or
non-numeric (`parseFloat` gives `NaN`, modelled `none`) is NOT rejected:
`validateRow` keeps it — with the `NaN` stored in `temp_mean_f` — and it
reaches the returned record set. -/
theorem nan_temperature_record_kept :
    (validateRow ⟨some "2026-01-05", some 10, none, none, none, none⟩).1
      = some ⟨"2026-01-05", 10, none, none, none, 2.061⟩ ∧
    (validateRow ⟨some "2026-01-05", some 10, none, none, none, none⟩).2 = true ∧
    parsePECOCSVRecords [⟨some "2026-01-05", some 10, none, none, none, none⟩]
      = [⟨"2026-01-05", 10, none, none, none, 2.061⟩] := by
  refine ⟨?_, ?_, ?_⟩ <;>
    norm_num [parsePECOCSVRecords, validateRow, sortByDate, insertByDate, jsOr, jsOrQ]

/-- C4 (amended): a record whose `meanTemperature` is missing or
non-numeric is not rejected.  Provided its date parses and its usage is a
non-negative number, `validateRow` keeps the record, storing the parsed
temperature unchanged (`NaN` included), and a missing temperature merely
sets the warning flag. -/
theorem temperature_validation_never_rejects (r : RawRecord) (d : String) (u : ℚ)
    (hd : r.date = some d) (hu : r.usage_kwh = some u) (hpos : 0 ≤ u) :
    (validateRow r).1
      = some { date := d, usage_kwh := u, temp_mean_f := r.temp_mean_f,
               temp_min_f := jsOr r.temp_min_f r.temp_mean_f,
               temp_max_f := jsOr r.temp_max_f r.temp_mean_f,
               cost_dollars := jsOrQ r.cost_dollars (u * 0.2061) } ∧
    (r.temp_mean_f = none → (validateRow r).2 = true) := by
  constructor
  · simp [validateRow, hd, hu, not_lt.mpr hpos]
  · intro h
    simp [validateRow, hd, hu, not_lt.mpr hpos, h]

/-- C4 witness: the amended theorem applied to a concrete row with a
missing temperature. -/
theorem temperature_validation_never_rejects_witness :
    (RawRecord.mk (some "2026-01-05") (some 10) none (some 35) none none).date
      = some "2026-01-05" ∧
    (validateRow ⟨some "2026-01-05", some 10, none, some 35, none, none⟩).1
      = some { date := "2026-01-05", usage_kwh := 10,
               temp_mean_f := (⟨some "2026-01-05", some 10, none, some 35, none, none⟩ :
                  RawRecord).temp_mean_f,
               temp_min_f := jsOr (some 35) none,
               temp_max_f := jsOr none none,
               cost_dollars := jsOrQ none ((10 : ℚ) * 0.2061) } :=
  ⟨rfl,
   (temperature_validation_never_rejects
     ⟨some "2026-01-05", some 10, none, some 35, none, none⟩
     "2026-01-05" 10 rfl rfl (by norm_num)).1⟩

/-- C5: on a day whose resolved occupancy has nobody present and whose
excess usage is non-negative, each share equals half the baseline
(legal-minimum) cost, so the shares sum to the baseline cost only, while
the excess cost is still reported in the result — the one branch exempt
from cost conservation. -/
theorem nobody_present_split_is_baseline_only
    (ops : List OccupancyPeriod) (r : DayRecord)
    (hocc : (resolveOccupancy ops r.date).residents.you
      + (resolveOccupancy ops r.date).residents.flatmate = 0)
    (hexc : 0 ≤ r.usage_kwh - calculateLegalMinimum r.temp_mean_f) :
    (dayBreakdown ops r).yourShare = (dayBreakdown ops r).legalMinCost / 2 ∧
    (dayBreakdown ops r).flatmateShare = (dayBreakdown ops r).legalMinCost / 2 ∧
    (dayBreakdown ops r).yourShare + (dayBreakdown ops r).flatmateShare
      = (dayBreakdown ops r).legalMinCost ∧
    (dayBreakdown ops r).excessCost
      = (r.usage_kwh - calculateLegalMinimum r.temp_mean_f) * COST_PER_KWH := by
  have hnn : ¬(r.usage_kwh - calculateLegalMinimum r.temp_mean_f < 0) := not_lt.mpr hexc
  refine ⟨?_, ?_, ?_, ?_⟩ <;>
    simp [dayBreakdown, calculateExcess, hocc, hnn]

/-- C5 witness: nobody home on 2026-01-05 while 51 kWh were used at
30 °F. -/
theorem nobody_present_split_is_baseline_only_witness :
    (resolveOccupancy [⟨"2026-01-01", "2026-01-31", ⟨0, 0⟩, "flatmate"⟩]
        (DayRecord.mk "2026-01-05" 51 30).date).residents.you
      + (resolveOccupancy [⟨"2026-01-01", "2026-01-31", ⟨0, 0⟩, "flatmate"⟩]
        (DayRecord.mk "2026-01-05" 51 30).date).residents.flatmate = 0 ∧
    0 ≤ (51 : ℚ) - calculateLegalMinimum 30 ∧
    (dayBreakdown [⟨"2026-01-01", "2026-01-31", ⟨0, 0⟩, "flatmate"⟩]
        ⟨"2026-01-05", 51, 30⟩).yourShare
        + (dayBreakdown [⟨"2026-01-01", "2026-01-31", ⟨0, 0⟩, "flatmate"⟩]
        ⟨"2026-01-05", 51, 30⟩).flatmateShare
      = (dayBreakdown [⟨"2026-01-01", "2026-01-31", ⟨0, 0⟩, "flatmate"⟩]
        ⟨"2026-01-05", 51, 30⟩).legalMinCost := by
  have h1 : (resolveOccupancy [⟨"2026-01-01", "2026-01-31", ⟨0, 0⟩, "flatmate"⟩]
      (DayRecord.mk "2026-01-05" 51 30).date).residents.you
      + (resolveOccupancy [⟨"2026-01-01", "2026-01-31", ⟨0, 0⟩, "flatmate"⟩]
        (DayRecord.mk "2026-01-05" 51 30).date).residents.flatmate = 0 := by decide
  have h2 : 0 ≤ (51 : ℚ) - calculateLegalMinimum 30 := by
    norm_num [calculateLegalMinimum, LEGAL_MIN_INTERCEPT, LEGAL_MIN_SLOPE,
      MIN_LEGAL_MIN_USAGE, MAX_LEGAL_MIN_USAGE]
  exact ⟨h1, h2,
    (nobody_present_split_is_baseline_only _ ⟨"2026-01-05", 51, 30⟩ h1 h2).2.2.1⟩

/-- C6: on a day with negative excess (actual usage below baseline), both
shares equal half the actual cost, regardless of the occupancy assignment
and of the controller — in both `calculateTimeWindowSplit` (via
`dayBreakdown`) and `calculateDailySplit`. -/
theorem savings_day_equal_split
    (ops : List OccupancyPeriod) (r : DayRecord) (u t : ℚ) (c : String)
    (h1 : r.usage_kwh - calculateLegalMinimum r.temp_mean_f < 0)
    (h2 : u - calculateLegalMinimum t < 0) :
    (dayBreakdown ops r).yourShare = (dayBreakdown ops r).cost / 2 ∧
    (dayBreakdown ops r).flatmateShare = (dayBreakdown ops r).cost / 2 ∧
    (calculateDailySplit u t c).yourShare = (calculateDailySplit u t c).actualCost / 2 ∧
    (calculateDailySplit u t c).flatmateShare
      = (calculateDailySplit u t c).actualCost / 2 := by
  refine ⟨?_, ?_, ?_, ?_⟩ <;>
    simp [dayBreakdown, calculateDailySplit, calculateExcess, h1, h2]

/-- C6 witness: with baseline 24.11 kWh (30 °F), actual usage 15 kWh and
rate 0.2061 $/kWh, each share is (15 × 0.2061)/2 = 1.54575. -/
theorem savings_day_equal_split_witness :
    (15 : ℚ) - calculateLegalMinimum 30 < 0 ∧
    calculateLegalMinimum 30 = 24.11 ∧
    (calculateDailySplit 15 30 "you").yourShare = 15 * 0.2061 / 2 ∧
    (calculateDailySplit 15 30 "you").flatmateShare = 15 * 0.2061 / 2 := by
  have hlt : (15 : ℚ) - calculateLegalMinimum 30 < 0 := by
    norm_num [calculateLegalMinimum, LEGAL_MIN_INTERCEPT, LEGAL_MIN_SLOPE,
      MIN_LEGAL_MIN_USAGE, MAX_LEGAL_MIN_USAGE]
  have h := savings_day_equal_split [] ⟨"2026-01-05", 15, 30⟩ 15 30 "you" hlt hlt
  refine ⟨hlt, ?_, ?_, ?_⟩
  · norm_num [calculateLegalMinimum, LEGAL_MIN_INTERCEPT, LEGAL_MIN_SLOPE,
      MIN_LEGAL_MIN_USAGE, MAX_LEGAL_MIN_USAGE]
  · rw [h.2.2.1]
    norm_num [calculateDailySplit, calculateExcess, calculateLegalMinimum,
      LEGAL_MIN_INTERCEPT, LEGAL_MIN_SLOPE, MIN_LEGAL_MIN_USAGE,
      MAX_LEGAL_MIN_USAGE, COST_PER_KWH]
  · rw [h.2.2.2]
    norm_num [calculateDailySplit, calculateExcess, calculateLegalMinimum,
      LEGAL_MIN_INTERCEPT, LEGAL_MIN_SLOPE, MIN_LEGAL_MIN_USAGE,
      MAX_LEGAL_MIN_USAGE, COST_PER_KWH]

/-- C7: occupancy resolves to the first assignment in the supplied list
whose closed interval `[start, end]` contains the date
(first-match-wins under overlap, the later matching `post` entries being
ignored), and to the default assignment — both present, controller
`"flatmate"` — when no assignment matches. -/
theorem occupancy_first_match_and_default
    (pre post ops : List OccupancyPeriod) (p : OccupancyPeriod) (date : String)
    (hpre : ∀ q ∈ pre, ¬(jsStrLe q.start date = true ∧ jsStrLe date q.endDate = true))
    (hp : jsStrLe p.start date = true ∧ jsStrLe date p.endDate = true)
    (hnone : ∀ q ∈ ops, ¬(jsStrLe q.start date = true ∧ jsStrLe date q.endDate = true)) :
    resolveOccupancy (pre ++ p :: post) date
      = { residents := p.residents, thermostatController := p.thermostatController } ∧
    resolveOccupancy ops date
      = { residents := { you := 1, flatmate := 1 }, thermostatController := "flatmate" } :=
  ⟨resolveOccupancy_of_first_match pre post p date hpre hp,
   resolveOccupancy_of_no_match ops date hnone⟩

/-- C7 witness: two overlapping assignments cover 2026-01-05; resolution
picks the first, and on an empty list the default applies. -/
theorem occupancy_first_match_and_default_witness :
    resolveOccupancy
        [⟨"2025-01-01", "2025-01-31", ⟨1, 0⟩, "you"⟩,
         ⟨"2026-01-01", "2026-01-31", ⟨0, 1⟩, "you"⟩,
         ⟨"2026-01-02", "2026-01-20", ⟨1, 1⟩, "flatmate"⟩] "2026-01-05"
      = { residents := ⟨0, 1⟩, thermostatController := "you" } ∧
    resolveOccupancy [] "2026-01-05"
      = { residents := { you := 1, flatmate := 1 }, thermostatController := "flatmate" } := by
  have h := occupancy_first_match_and_default
    [⟨"2025-01-01", "2025-01-31", ⟨1, 0⟩, "you"⟩]
    [⟨"2026-01-02", "2026-01-20", ⟨1, 1⟩, "flatmate"⟩] []
    ⟨"2026-01-01", "2026-01-31", ⟨0, 1⟩, "you"⟩ "2026-01-05"
    (by decide) (by decide) (by simp)
  exact ⟨h.1, h.2⟩

/-- C8: for every input temperature, `calculateLegalMinimum` returns
`clamp(intercept + slope · T, minUsage, maxUsage)`, a value never outside
the closed interval `[MIN_LEGAL_MIN_USAGE, MAX_LEGAL_MIN_USAGE]`. -/
theorem legal_minimum_clamped (t : ℚ) :
    calculateLegalMinimum t
      = max MIN_LEGAL_MIN_USAGE
          (min MAX_LEGAL_MIN_USAGE (LEGAL_MIN_INTERCEPT + LEGAL_MIN_SLOPE * t)) ∧
    MIN_LEGAL_MIN_USAGE ≤ calculateLegalMinimum t ∧
    calculateLegalMinimum t ≤ MAX_LEGAL_MIN_USAGE := by
  refine ⟨rfl, le_max_left _ _, ?_⟩
  exact max_le (by norm_num [MIN_LEGAL_MIN_USAGE, MAX_LEGAL_MIN_USAGE]) (min_le_left _ _)

/-- C9: a range whose parsed start date lies after its end date fails
validation with the invalid-range error; a range spanning more than 365
days (e.g. a 400-day range) fails with the too-large error; an empty
filtered record set is not an error — `calculateTimeWindowSplit` returns
zero-valued totals with a day count of 0. -/
theorem range_validation_and_empty_filter
    (s e s2 e2 : ℤ) (data : List DayRecord) (dr : DateRange)
    (ops : List OccupancyPeriod)
    (h1 : e < s) (h2 : s2 ≤ e2) (h3 : 365 < e2 - s2)
    (hempty : data.filter (inDateRange dr) = []) :
    validateDateRange (some s) (some e)
      = { valid := false, error := some "End date must be after start date" } ∧
    validateDateRange (some s2) (some e2)
      = { valid := false, error := some "Date range cannot exceed 1 year" } ∧
    (calculateTimeWindowSplit data dr ops).totals.totalDays = 0 ∧
    (calculateTimeWindowSplit data dr ops).totals = initialTotals ∧
    (calculateTimeWindowSplit data dr ops).dailyBreakdowns = [] := by
  refine ⟨?_, ?_, ?_, ?_, ?_⟩
  · simp [validateDateRange, h1]
  · simp [validateDateRange, not_lt.mpr h2, h3]
  · simp [calculateTimeWindowSplit, hempty, initialTotals]
  · simp [calculateTimeWindowSplit, hempty, initialTotals]
  · simp [calculateTimeWindowSplit, hempty]

/-- C9 witness: 2026-02-01 → 2026-01-01 (day numbers 31 and 0) is
invalid; a 400-day range (day numbers 0 and 399) is too large; an empty
record list yields zero totals. -/
theorem range_validation_and_empty_filter_witness :
    validateDateRange (some 31) (some 0)
      = { valid := false, error := some "End date must be after start date" } ∧
    validateDateRange (some 0) (some 399)
      = { valid := false, error := some "Date range cannot exceed 1 year" } ∧
    (calculateTimeWindowSplit [] ⟨"2026-01-01", "2026-01-31"⟩ []).totals
      = initialTotals := by
  have h := range_validation_and_empty_filter 31 0 0 399 []
    ⟨"2026-01-01", "2026-01-31"⟩ [] (by norm_num) (by norm_num) (by norm_num) rfl
  exact ⟨h.1, h.2.1, h.2.2.2.1⟩

/-- C10: the controller designation is an exact string comparison against
`"flatmate"` — with excess ≥ 0 and both occupants present, any other
controller value (for example `"you"` or a misspelling) sends the whole
excess cost to the `you` share, in both `calculateDailySplit` and
`dayBreakdown`; and `calculateDailySplitNoController` (the omitted
parameter) equals the call with `"flatmate"`. -/
theorem controller_exact_string_comparison
    (u t : ℚ) (c : String) (ops : List OccupancyPeriod) (r : DayRecord)
    (hc : c ≠ "flatmate")
    (hexc : 0 ≤ u - calculateLegalMinimum t)
    (hexcr : 0 ≤ r.usage_kwh - calculateLegalMinimum r.temp_mean_f)
    (hyou : (resolveOccupancy ops r.date).residents.you = 1)
    (hflat : (resolveOccupancy ops r.date).residents.flatmate = 1)
    (hcr : (resolveOccupancy ops r.date).thermostatController ≠ "flatmate") :
    (calculateDailySplit u t c).yourShare
        = (calculateDailySplit u t c).legalMinCost / 2
          + (calculateDailySplit u t c).excessCost ∧
    (calculateDailySplit u t c).flatmateShare
        = (calculateDailySplit u t c).legalMinCost / 2 ∧
    (dayBreakdown ops r).yourShare
        = (dayBreakdown ops r).legalMinCost / 2 + (dayBreakdown ops r).excessCost ∧
    (dayBreakdown ops r).flatmateShare = (dayBreakdown ops r).legalMinCost / 2 ∧
    calculateDailySplitNoController u t = calculateDailySplit u t "flatmate" := by
  have hnn1 : ¬(u - calculateLegalMinimum t < 0) := not_lt.mpr hexc
  have hnn2 : ¬(r.usage_kwh - calculateLegalMinimum r.temp_mean_f < 0) := not_lt.mpr hexcr
  refine ⟨?_, ?_, ?_, ?_, rfl⟩ <;>
    simp [dayBreakdown, calculateDailySplit, calculateExcess, hc, hcr, hyou, hflat,
      hnn1, hnn2]

/-- C10 witness: controller string `"Flatmate"` (a misspelling of the
expected lowercase value), both occupants present, 51 kWh at 30 °F. -/
theorem controller_exact_string_comparison_witness :
    ("Flatmate" : String) ≠ "flatmate" ∧
    (calculateDailySplit 51 30 "Flatmate").yourShare
        = (calculateDailySplit 51 30 "Flatmate").legalMinCost / 2
          + (calculateDailySplit 51 30 "Flatmate").excessCost ∧
    (dayBreakdown [⟨"2026-01-01", "2026-01-31", ⟨1, 1⟩, "you"⟩]
        ⟨"2026-01-05", 51, 30⟩).yourShare
        = (dayBreakdown [⟨"2026-01-01", "2026-01-31", ⟨1, 1⟩, "you"⟩]
            ⟨"2026-01-05", 51, 30⟩).legalMinCost / 2
          + (dayBreakdown [⟨"2026-01-01", "2026-01-31", ⟨1, 1⟩, "you"⟩]
            ⟨"2026-01-05", 51, 30⟩).excessCost := by
  have hq : 0 ≤ (51 : ℚ) - calculateLegalMinimum 30 := by
    norm_num [calculateLegalMinimum, LEGAL_MIN_INTERCEPT, LEGAL_MIN_SLOPE,
      MIN_LEGAL_MIN_USAGE, MAX_LEGAL_MIN_USAGE]
  have h := controller_exact_string_comparison 51 30 "Flatmate"
    [⟨"2026-01-01", "2026-01-31", ⟨1, 1⟩, "you"⟩] ⟨"2026-01-05", 51, 30⟩
    (by decide) hq hq (by decide) (by decide) (by decide)
  exact ⟨by decide, h.1, h.2.2.1⟩

end BillSplitter
